import Mathlib

/-!
Shallow embedding of the validation-and-completeness engine of the
workers'-compensation intake form (src/app.py).  Pure helper functions
(`is_valid_ssn`, `format_ssn`, `is_valid_fein`, `age_at_least`) and the
inline engine expressions (`required_checks`, `completeness_pct`,
`submit_disabled_reasons`, the payload building) are translated into
executable Lean definitions, and the frozen claims about them are settled
as theorems.

Modelling conventions, stated once:
* Python strings are Lean `String`s; `re.sub(r"\D", "", s)` is
  `s.data.filter Char.isDigit`; `bool(s)` on a string is `!s.isEmpty`;
  `bool(s and s.strip())` is `!s.isEmpty && !s.trim.isEmpty`.
* `datetime.date` values delivered by `st.date_input` are always actual
  dates (the widgets never yield `None`), and `bool()` of a `date` or a
  `time` object is always `True` in Python; the corresponding checks are
  therefore constantly true.
* `date.today()` is threaded explicitly as a `today : Date` parameter.
* `int(100 * s / t)`: Python true division of the nonnegative ints
  `100*s` and `t` followed by `int()` truncation.  For every value the
  program produces (`s ≤ t ≤ 15`) the float quotient is either exact (when
  the rational quotient is an integer, both operands being small ints) or
  at distance ≥ 1/15 from every other integer, far beyond double rounding
  error, so truncation of the float equals the rational floor; the
  expression is embedded as the rational floor `⌊(100*s : ℚ)/t⌋`.
  Division by zero raises `ZeroDivisionError` in Python; where the divisor
  is not known to be nonzero the expression is modelled in `Option` with
  `none` for the raised exception.
-/

/-- Calendar date (year, month, day). -/
structure Date where
  year : Nat
  month : Nat
  day : Nat
deriving DecidableEq

/-- Time of day (hour, minute), as delivered by the time widget. -/
structure Time where
  hour : Nat
  minute : Nat
deriving DecidableEq

/-- Date comparison `a <= b` of `datetime.date`: lexicographic on
(year, month, day). -/
def Date.leb (a b : Date) : Bool :=
  decide (a.year < b.year ∨ (a.year = b.year ∧
    (a.month < b.month ∨ (a.month = b.month ∧ a.day ≤ b.day))))

/-- Gregorian leap-year test, as used by `dateutil`'s calendar arithmetic. -/
def isLeap (y : Nat) : Bool :=
  decide ((y % 4 = 0 ∧ y % 100 ≠ 0) ∨ y % 400 = 0)

/-- Number of days in a month of a given year. -/
def daysInMonth (y m : Nat) : Nat :=
  if m = 2 then (if isLeap y then 29 else 28)
  else if m = 4 ∨ m = 6 ∨ m = 9 ∨ m = 11 then 30
  else 31

/-- `t - relativedelta(years := n)`: subtract `n` from the year and clamp
the day to the length of the resulting month (Feb 29 → Feb 28 in a
non-leap target year), which is `dateutil.relativedelta`'s behaviour. -/
def Date.subYears (t : Date) (n : Nat) : Date :=
  ⟨t.year - n, t.month, min t.day (daysInMonth (t.year - n) t.month)⟩

/-- Model of `age_at_least` (src/app.py lines 33-34):
`dob <= date.today() - relativedelta(years=years)`, with `today` passed
explicitly. -/
def age_at_least (today dob : Date) (years : Nat) : Bool :=
  Date.leb dob (today.subYears years)

/-- `bool(s)` for a Python string: true iff non-empty. -/
def pyTruthy (s : String) : Bool := !s.data.isEmpty

/-- Python `str.strip()` on a character list: drop whitespace from both
ends (structural, so concrete evaluation reduces in the kernel). -/
def stripList (l : List Char) : List Char :=
  ((l.dropWhile Char.isWhitespace).reverse.dropWhile Char.isWhitespace).reverse

/-- `bool(s and s.strip())`: the string is non-empty and its
whitespace-stripped form is non-empty. -/
def truthyStripped (s : String) : Bool :=
  !s.data.isEmpty && !(stripList s.data).isEmpty

/-- Python `a or b` on strings: `b` when `a` is falsy (empty), else `a`. -/
def pyOr (a b : String) : String := if a.data.isEmpty then b else a

/-- The digit characters of a string: `re.sub(r"\D", "", raw)`. -/
def digitsOf (raw : String) : List Char := raw.data.filter Char.isDigit

/-- The shape `\d{3}-\d{2}-\d{4}` on a character list: length 11 with
digits at positions 0-2, 4-5, 7-10 and dashes at positions 3 and 6. -/
def ssnMatches (l : List Char) : Bool :=
  decide (l.length = 11) && (l.take 3).all Char.isDigit &&
    (l.getD 3 ' ' == '-') && ((l.drop 4).take 2).all Char.isDigit &&
    (l.getD 6 ' ' == '-') && (l.drop 7).all Char.isDigit

/-- Model of `is_valid_ssn` (src/app.py lines 19-20):
`re.fullmatch(r"\d{3}-\d{2}-\d{4}", ssn)` is non-none. -/
def is_valid_ssn (ssn : String) : Bool := ssnMatches ssn.data

/-- Core of `format_ssn` on the digit list: 0-3 digits unchanged,
4-5 digits as `ddd-dd`, otherwise `digits[:3]-digits[3:5]-digits[5:9]`
(digits beyond the 9th dropped). -/
def format_ssn_digits (d : List Char) : List Char :=
  if d.length ≤ 3 then d
  else if d.length ≤ 5 then d.take 3 ++ '-' :: d.drop 3
  else d.take 3 ++ '-' :: ((d.drop 3).take 2 ++ '-' :: (d.drop 5).take 4)

/-- Model of `format_ssn` (src/app.py lines 22-28): strip non-digits,
then progressively insert dashes. -/
def format_ssn (raw : String) : String := ⟨format_ssn_digits (digitsOf raw)⟩

/-- The shape `\d{2}-\d{7}` on a character list: length 10 with digits at
positions 0-1 and 3-9 and a dash at position 2. -/
def feinMatches (l : List Char) : Bool :=
  decide (l.length = 10) && (l.take 2).all Char.isDigit &&
    (l.getD 2 ' ' == '-') && (l.drop 3).all Char.isDigit

/-- Model of `is_valid_fein` (src/app.py lines 30-31):
`re.fullmatch(r"\d{2}-\d{7}", fein)` is non-none. -/
def is_valid_fein (fein : String) : Bool := feinMatches fein.data

/-- Model of the FEIN normalization (src/app.py lines 134-137 and
162-165): strip non-digits; if the result is truthy and has exactly 9
digits, insert one dash after the 2nd digit; otherwise leave the bare
digit string. -/
def normalize_fein (raw : String) : String :=
  let digits := digitsOf raw
  if !digits.isEmpty && digits.length == 9 then
    ⟨digits.take 2 ++ '-' :: digits.drop 2⟩
  else ⟨digits⟩

/-- The mutable form state: one field per bound widget that the engine
(checks, gating, payload) reads.  `occupation_manual_input` is the state
of the free-text occupation widget; the variable `occupation_manual` of
the source is derived from it below. -/
structure ClaimDraft where
  emp_first : String
  emp_middle : String
  emp_last : String
  ssn_raw : String
  dob : Date
  date_hired : Date
  occupation : String
  occupation_manual_input : String
  avg_weekly_wage : String
  date_of_injury : Date
  time_of_injury : Time
  desc : String
  how_occurred : String
  on_premises : String
  occ_street : String
  occ_city : String
  occ_state : String
  occ_zip : String
  treating_physician : String
  employer_legal : String
  employer_fein_raw : String
  employer_contact : String
  policy_number : String
  date_insurer_received_notice : Date
  ca_claim_number : String
  medical_diagnoses : String
deriving DecidableEq

/-- Model of `occupation_manual` (src/app.py lines 67-69): the free-text
widget value when the selected occupation is "Other" or empty, the
initial `""` otherwise (the widget is not rendered then). -/
def occupation_manual (d : ClaimDraft) : String :=
  if d.occupation = "Other" ∨ d.occupation = "" then d.occupation_manual_input
  else ""

/-- `required_checks["employee_name"]` (line 179): `bool(emp_first and emp_last)`. -/
def check_employee_name (d : ClaimDraft) : Bool :=
  pyTruthy d.emp_first && pyTruthy d.emp_last

/-- `required_checks["ssn"]` (line 180): `is_valid_ssn(ssn)` where
`ssn = format_ssn(ssn_raw)` (line 49). -/
def check_ssn (d : ClaimDraft) : Bool := is_valid_ssn (format_ssn d.ssn_raw)

/-- `required_checks["dob"]` (line 181): `age_at_least(dob, 18)`. -/
def check_dob (today : Date) (d : ClaimDraft) : Bool :=
  age_at_least today d.dob 18

/-- `required_checks["date_hired"]` (line 182): `bool(date_hired)`; the
date widget always yields a `datetime.date`, and `bool()` of a date is
always `True`. -/
def check_date_hired (_ : ClaimDraft) : Bool := true

/-- `required_checks["date_of_injury"]` (line 183): `bool(date_of_injury)`,
always `True` (see `check_date_hired`). -/
def check_date_of_injury (_ : ClaimDraft) : Bool := true

/-- `required_checks["time_of_injury"]` (line 184): `bool(time_of_injury)`;
`bool()` of a `datetime.time` is always `True` (Python ≥ 3.5). -/
def check_time_of_injury (_ : ClaimDraft) : Bool := true

/-- `required_checks["description"]` (line 185): `bool(desc and desc.strip())`. -/
def check_desc (d : ClaimDraft) : Bool := truthyStripped d.desc

/-- `required_checks["how_occurred"]` (line 186). -/
def check_how_occurred (d : ClaimDraft) : Bool := truthyStripped d.how_occurred

/-- `required_checks["treating_physician"]` (line 187). -/
def check_treating_physician (d : ClaimDraft) : Bool :=
  truthyStripped d.treating_physician

/-- `required_checks["employer_legal"]` (line 188). -/
def check_employer_legal (d : ClaimDraft) : Bool :=
  truthyStripped d.employer_legal

/-- `required_checks["employer_fein"]` (line 189):
`is_valid_fein(employer_fein) if employer_fein else False`, where
`employer_fein` is the normalized value from lines 134-137. -/
def check_employer_fein (d : ClaimDraft) : Bool :=
  if pyTruthy (normalize_fein d.employer_fein_raw) then
    is_valid_fein (normalize_fein d.employer_fein_raw)
  else false

/-- `required_checks["policy_number"]` (line 190). -/
def check_policy_number (d : ClaimDraft) : Bool :=
  truthyStripped d.policy_number

/-- `required_checks["date_insurer_received_notice"]` (line 191):
`bool(date_insurer_received_notice)`, always `True`. -/
def check_date_insurer_received_notice (_ : ClaimDraft) : Bool := true

/-- `required_checks["ca_claim_number"]` (line 192). -/
def check_ca_claim_number (d : ClaimDraft) : Bool :=
  truthyStripped d.ca_claim_number

/-- `required_checks["occurrence_address"]` (line 195):
`all([occ_address.get("street"), occ_address.get("city"),
occ_address.get("state"), occ_address.get("zip")])` over the dict built
at line 97 when `on_premises == "No"`. -/
def check_occurrence_address (d : ClaimDraft) : Bool :=
  pyTruthy d.occ_street && pyTruthy d.occ_city &&
    pyTruthy d.occ_state && pyTruthy d.occ_zip

/-- Model of the `required_checks` dict (src/app.py lines 178-195) as an
insertion-ordered association list; the conditional `occurrence_address`
entry is appended (line 194-195) exactly when `on_premises == "No"`. -/
def required_checks (today : Date) (d : ClaimDraft) : List (String × Bool) :=
  [("employee_name", check_employee_name d),
   ("ssn", check_ssn d),
   ("dob", check_dob today d),
   ("date_hired", check_date_hired d),
   ("date_of_injury", check_date_of_injury d),
   ("time_of_injury", check_time_of_injury d),
   ("description", check_desc d),
   ("how_occurred", check_how_occurred d),
   ("treating_physician", check_treating_physician d),
   ("employer_legal", check_employer_legal d),
   ("employer_fein", check_employer_fein d),
   ("policy_number", check_policy_number d),
   ("date_insurer_received_notice", check_date_insurer_received_notice d),
   ("ca_claim_number", check_ca_claim_number d)]
  ++ (if d.on_premises = "No" then
        [("occurrence_address", check_occurrence_address d)]
      else [])

/-- Number of satisfied checks: `sum(required_checks.values())`. -/
def satisfiedCount (checks : List (String × Bool)) : Nat :=
  (checks.filter (fun p => p.2)).length

/-- The expression `int(100 * sum(required_checks.values()) /
len(required_checks))` (src/app.py line 197) as a function of the checks
dict, with Python's `ZeroDivisionError` on an empty dict modelled as
`none` (see the module comment for the float/floor identification). -/
def completeness_expr (checks : List (String × Bool)) : Option ℤ :=
  if checks.length = 0 then none
  else some ⌊(100 * (satisfiedCount checks : ℚ)) / (checks.length : ℚ)⌋

/-- The completeness score of a draft (src/app.py line 197); the divisor
`len(required_checks)` is at least 14 for every draft, so the score is
the rational floor directly. -/
def completeness_pct (today : Date) (d : ClaimDraft) : ℤ :=
  ⌊(100 * (satisfiedCount (required_checks today d) : ℚ)) /
    ((required_checks today d).length : ℚ)⌋

/-- Model of the blocking-reason accumulation (src/app.py lines 231-247);
`hasSignature` is `signature_canvas.image_data is not None`. -/
def submit_disabled_reasons (today : Date) (d : ClaimDraft)
    (hasSignature : Bool) : List String :=
  (if check_employee_name d then [] else ["Employee full name required."]) ++
  (if check_ssn d then [] else ["Valid SSN required (###-##-####)."]) ++
  (if check_dob today d then [] else ["Employee must be ≥ 18 years old."]) ++
  (if check_date_of_injury d then [] else ["Date of injury required."]) ++
  (if check_treating_physician d then [] else ["Treating physician required."]) ++
  (if check_employer_legal d then [] else ["Employer legal name required."]) ++
  (if check_employer_fein d then [] else ["Valid Employer FEIN required (##-#######)."]) ++
  (if hasSignature then [] else ["Digital signature required."])

/-- The submission gate: the reasons list and its emptiness (src/app.py
line 249: the submission proceeds iff `submit_disabled_reasons` is empty). -/
def canSubmit (today : Date) (d : ClaimDraft) (hasSignature : Bool) :
    Bool × List String :=
  let reasons := submit_disabled_reasons today d hasSignature
  (reasons.isEmpty, reasons)

/-- Zero-pad a number below 100 to two digits, as `str` of dates/times does. -/
def pad2 (n : Nat) : String := if n < 10 then "0" ++ toString n else toString n

/-- `str()` of a `datetime.date`: ISO `YYYY-MM-DD`. -/
def Date.iso (d : Date) : String :=
  toString d.year ++ "-" ++ pad2 d.month ++ "-" ++ pad2 d.day

/-- `str()` of a `datetime.time`: `HH:MM:SS`. -/
def Time.iso (t : Time) : String := pad2 t.hour ++ ":" ++ pad2 t.minute ++ ":00"

/-- `payload["employee"]` (src/app.py line 256). -/
structure EmployeePayload where
  first : String
  middle : String
  last : String
  ssn : String
  dob : String
deriving DecidableEq

/-- `payload["employment"]` (src/app.py line 257). -/
structure EmploymentPayload where
  hired : String
  occupation : String
  avg_weekly_wage : String
deriving DecidableEq

/-- `payload["incident"]` (src/app.py line 258). -/
structure IncidentPayload where
  date : String
  time : String
  desc : String
  how : String
  on_premises : String
deriving DecidableEq

/-- `payload["medical"]` (src/app.py line 259). -/
structure MedicalPayload where
  physician : String
  diagnoses : String
deriving DecidableEq

/-- `payload["employer"]` (src/app.py line 260). -/
structure EmployerPayload where
  legal : String
  fein : String
  contact : String
deriving DecidableEq

/-- The submission payload (src/app.py lines 255-262). -/
structure Payload where
  employee : EmployeePayload
  employment : EmploymentPayload
  incident : IncidentPayload
  medical : MedicalPayload
  employer : EmployerPayload
  completeness_pct : ℤ
deriving DecidableEq

/-- Model of the payload construction (src/app.py lines 255-262).  The
`employment.occupation` entry is Python's `occupation or occupation_manual`. -/
def buildPayload (today : Date) (d : ClaimDraft) : Payload :=
  { employee := { first := d.emp_first, middle := d.emp_middle,
                  last := d.emp_last, ssn := format_ssn d.ssn_raw,
                  dob := d.dob.iso }
    employment := { hired := d.date_hired.iso,
                    occupation := pyOr d.occupation (occupation_manual d),
                    avg_weekly_wage := d.avg_weekly_wage }
    incident := { date := d.date_of_injury.iso, time := d.time_of_injury.iso,
                  desc := d.desc, how := d.how_occurred,
                  on_premises := d.on_premises }
    medical := { physician := d.treating_physician,
                 diagnoses := d.medical_diagnoses }
    employer := { legal := d.employer_legal,
                  fein := normalize_fein d.employer_fein_raw,
                  contact := d.employer_contact }
    completeness_pct := completeness_pct today d }

/-- A fully-filled draft (cf. the end-to-end scenario of the spec):
every one of the 14 active checks passes with `witnessToday` as today. -/
def filledDraft : ClaimDraft :=
  { emp_first := "Jane", emp_middle := "", emp_last := "Doe",
    ssn_raw := "123456789", dob := ⟨1990, 1, 1⟩, date_hired := ⟨2015, 3, 2⟩,
    occupation := "Driver", occupation_manual_input := "",
    avg_weekly_wage := "500.00", date_of_injury := ⟨2026, 9, 30⟩,
    time_of_injury := ⟨9, 30⟩, desc := "Fell from ladder.",
    how_occurred := "Slipped while climbing.", on_premises := "Yes",
    occ_street := "", occ_city := "", occ_state := "", occ_zip := "",
    treating_physician := "Dr. Smith", employer_legal := "Acme Corp",
    employer_fein_raw := "123456789", employer_contact := "Pat Lee 555-0100",
    policy_number := "P-1001", date_insurer_received_notice := ⟨2026, 10, 1⟩,
    ca_claim_number := "C-42", medical_diagnoses := "Sprain" }

/-- A fixed evaluation day for the concrete drafts. -/
def witnessToday : Date := ⟨2026, 10, 12⟩

/-- `filledDraft` with occupation "Other" and manual text "Welder". -/
def otherOccupationDraft : ClaimDraft :=
  { filledDraft with occupation := "Other", occupation_manual_input := "Welder" }

/-- `filledDraft` with the claims-admin claim number cleared, so exactly
13 of the 14 active checks are satisfied. -/
def draft13 : ClaimDraft := { filledDraft with ca_claim_number := "" }

/-- `filledDraft` with the employee first name cleared. -/
def noFirstNameDraft : ClaimDraft := { filledDraft with emp_first := "" }

/-- The fourteen unconditional requirement keys, in insertion order. -/
def unconditionalKeys : List String :=
  ["employee_name", "ssn", "dob", "date_hired", "date_of_injury",
   "time_of_injury", "description", "how_occurred", "treating_physician",
   "employer_legal", "employer_fein", "policy_number",
   "date_insurer_received_notice", "ca_claim_number"]

/-- Claim-side table for the gating order: the seven gating checks in the
order the claim states (employee_name, ssn, dob, date_of_injury,
treating_physician, employer_legal, employer_fein), each paired with its
fixed message, with the signature flag last. -/
def gatingTable (today : Date) (d : ClaimDraft) (hasSignature : Bool) :
    List (Bool × String) :=
  [(check_employee_name d, "Employee full name required."),
   (check_ssn d, "Valid SSN required (###-##-####)."),
   (check_dob today d, "Employee must be ≥ 18 years old."),
   (check_date_of_injury d, "Date of injury required."),
   (check_treating_physician d, "Treating physician required."),
   (check_employer_legal d, "Employer legal name required."),
   (check_employer_fein d, "Valid Employer FEIN required (##-#######)."),
   (hasSignature, "Digital signature required.")]

/-- Every character of a filtered digit list is a digit. -/
lemma digitsOf_all (raw : String) : ∀ c ∈ digitsOf raw, c.isDigit = true :=
  fun _ hc => (List.mem_filter.mp hc).2

/-- On a list of digit characters, the progressive SSN formatter produces
a string matching `\d{3}-\d{2}-\d{4}` exactly when the list has at least
nine elements (elements beyond the ninth are dropped). -/
lemma ssnMatches_format (l : List Char) (hall : ∀ c ∈ l, c.isDigit = true) :
    ssnMatches (format_ssn_digits l) = decide (9 ≤ l.length) := by
  rcases l with _ | ⟨a0, _ | ⟨a1, _ | ⟨a2, _ | ⟨a3, _ | ⟨a4, _ | ⟨a5, _ |
    ⟨a6, _ | ⟨a7, _ | ⟨a8, rest⟩⟩⟩⟩⟩⟩⟩⟩⟩ <;>
    simp_all [ssnMatches, format_ssn_digits, List.getD]

/-- The rational-floor completeness score is exactly the natural floor
division `100 * satisfied / total`. -/
lemma completeness_eq_natDiv (today : Date) (d : ClaimDraft) :
    completeness_pct today d =
      ((100 * satisfiedCount (required_checks today d) /
        (required_checks today d).length : ℕ) : ℤ) := by
  unfold completeness_pct
  have h : (100 * (satisfiedCount (required_checks today d) : ℚ)) =
      ((100 * satisfiedCount (required_checks today d) : ℕ) : ℚ) := by
    push_cast
    ring
  rw [h, Rat.floor_natCast_div_natCast]
  exact (Int.ofNat_tdiv _ _).symm

example : completeness_pct witnessToday filledDraft = 100 := by
  rw [completeness_eq_natDiv]
  decide

example : completeness_pct witnessToday draft13 = 92 := by
  rw [completeness_eq_natDiv]
  decide

/-- The active check list has length 14, plus one when off-premises. -/
lemma required_checks_length (today : Date) (d : ClaimDraft) :
    (required_checks today d).length =
      14 + (if d.on_premises = "No" then 1 else 0) := by
  by_cases hp : d.on_premises = "No" <;> simp [required_checks, hp]

/-- If a filter keeps the whole length, every element passes the test. -/
lemma filter_length_eq_all {α : Type} (p : α → Bool) :
    ∀ l : List α, (l.filter p).length = l.length → ∀ a ∈ l, p a = true := by
  intro l
  induction l with
  | nil =>
    intro _ a ha
    simp at ha
  | cons x xs ih =>
    intro h a ha
    have hle := List.length_filter_le p xs
    by_cases hx : p x = true
    · rw [List.filter_cons_of_pos hx] at h
      rcases List.mem_cons.mp ha with rfl | hmem
      · exact hx
      · exact ih (by simpa using h) a hmem
    · rw [List.filter_cons_of_neg (by simpa using hx)] at h
      simp at h
      omega

/-- A nine-element digit list with a dash inserted after the second
element matches `\d{2}-\d{7}`. -/
lemma feinMatches_inserted (l : List Char) (hall : ∀ c ∈ l, c.isDigit = true)
    (h9 : l.length = 9) :
    feinMatches (l.take 2 ++ '-' :: l.drop 2) = true := by
  rcases l with _ | ⟨c0, _ | ⟨c1, t⟩⟩
  · simp at h9
  · simp at h9
  · have h7 : t.length = 7 := by simpa using h9
    simp_all [feinMatches, List.getD]

/-- A bare list of digit characters never matches `\d{2}-\d{7}`. -/
lemma feinMatches_digits_false (l : List Char)
    (hall : ∀ c ∈ l, c.isDigit = true) : feinMatches l = false := by
  by_cases h10 : l.length = 10
  · rcases l with _ | ⟨c0, _ | ⟨c1, _ | ⟨c2, t⟩⟩⟩
    · simp at h10
    · simp at h10
    · simp at h10
    · have hc2 : c2.isDigit = true := hall c2 (by simp)
      have hne : (c2 == '-') = false := by
        cases hbe : c2 == '-'
        · rfl
        · have hc : c2 = '-' := eq_of_beq hbe
          rw [hc] at hc2
          exact absurd hc2 (by decide)
      simp [feinMatches, List.getD, hne]
  · simp [feinMatches, h10]

/-- Claim C1 (code bug): on a draft that passes the submission gate with
the selected occupation "Other" and manual free-text occupation
"Welder", the payload's `employment.occupation` is the selected option
"Other" (Python `occupation or occupation_manual` keeps the truthy
selection), not the manual free-text value the claim requires. -/
theorem payload_occupation_other_bug :
    (canSubmit witnessToday otherOccupationDraft true).1 = true ∧
    occupation_manual otherOccupationDraft = "Welder" ∧
    (buildPayload witnessToday otherOccupationDraft).employment.occupation =
      "Other" ∧
    (buildPayload witnessToday otherOccupationDraft).employment.occupation ≠
      occupation_manual otherOccupationDraft := by
  refine ⟨by decide, by decide, by decide, by decide⟩

/-- Claim C2: for every draft the completeness score equals the
truncating integer division `100 * satisfied / total` over the active
requirement set. -/
theorem score_floor_division (today : Date) (d : ClaimDraft) :
    completeness_pct today d =
      ((100 * satisfiedCount (required_checks today d) /
        (required_checks today d).length : ℕ) : ℤ) :=
  completeness_eq_natDiv today d

/-- Claim C3 counterexample: at 13 of 14 satisfied active checks the
code's score is 92 (floor of 92.857) while rounding would give 93, so
the score is not `round(100 * satisfied / total)`. -/
theorem score_not_round_counterexample :
    completeness_pct witnessToday draft13 ≠
      round (100 * (satisfiedCount (required_checks witnessToday draft13) : ℚ) /
        ((required_checks witnessToday draft13).length : ℚ)) := by
  have hs : satisfiedCount (required_checks witnessToday draft13) = 13 := by
    decide
  have ht : (required_checks witnessToday draft13).length = 14 := by decide
  have h92 : completeness_pct witnessToday draft13 = 92 := by
    rw [completeness_eq_natDiv]
    decide
  rw [h92, hs, ht]
  norm_num [round_eq]

/-- Claim C3 (amended): the completeness score is the floor (truncating)
of `100 * satisfied / total`, not the rounding, where the total is the
current size of the requirement set: the 14 unconditional checks plus
the conditional one exactly when the draft is off-premises. -/
theorem score_floor_with_denominator (today : Date) (d : ClaimDraft) :
    completeness_pct today d =
      ((100 * satisfiedCount (required_checks today d) /
        (required_checks today d).length : ℕ) : ℤ) ∧
    (required_checks today d).length =
      14 + (if d.on_premises = "No" then 1 else 0) :=
  ⟨completeness_eq_natDiv today d, required_checks_length today d⟩

/-- Claim C4: the submission gate returns exactly the fixed messages of
the failed gating checks, in the order employee_name, ssn, dob,
date_of_injury, treating_physician, employer_legal, employer_fein,
signature last; it permits submission iff the reason list is empty; and
a missing first or last name always contributes
"Employee full name required.". -/
theorem canSubmit_gate_spec (today : Date) (d : ClaimDraft)
    (hasSignature : Bool) :
    (canSubmit today d hasSignature).2 =
      (gatingTable today d hasSignature).filterMap
        (fun p => if p.1 then none else some p.2) ∧
    ((canSubmit today d hasSignature).1 = true ↔
      (canSubmit today d hasSignature).2 = []) ∧
    (check_employee_name d = false →
      "Employee full name required." ∈ (canSubmit today d hasSignature).2) := by
  cases h1 : check_employee_name d <;> cases h2 : check_ssn d <;>
    cases h3 : check_dob today d <;> cases h5 : check_treating_physician d <;>
    cases h6 : check_employer_legal d <;> cases h7 : check_employer_fein d <;>
    cases hasSignature <;>
    simp_all [canSubmit, submit_disabled_reasons, gatingTable,
      check_date_of_injury]

/-- Claim C5 counterexample: the score expression of the source applied
to an empty requirement set raises ZeroDivisionError (modelled as
`none`); it does not return 0. -/
theorem score_empty_raises :
    completeness_expr [] = none ∧ completeness_expr [] ≠ some 0 := by
  constructor <;> simp [completeness_expr]

/-- Claim C5 (amended): the active requirement set of a draft is never
empty (it always has at least the 14 unconditional entries), so the
score's division never has a zero divisor and the exception-aware score
expression always returns the score; the code has no special case
returning 0 for an empty set, and on a hypothetical empty set it would
raise rather than return 0. -/
theorem score_divisor_never_zero (today : Date) (d : ClaimDraft) :
    (required_checks today d).length ≠ 0 ∧
    completeness_expr (required_checks today d) =
      some (completeness_pct today d) := by
  have hlen := required_checks_length today d
  have hpos : (required_checks today d).length ≠ 0 := by
    rw [hlen]
    split <;> omega
  refine ⟨hpos, ?_⟩
  unfold completeness_expr completeness_pct
  rw [if_neg hpos]

/-- Claim C6: the requirement key occurrence_address is active exactly
when the on-premises flag is "No"; flipping the flag to "No" appends
that single key (denominator + 1) and flipping it back to "Yes" removes
it from the active set entirely (so it is never counted, satisfied or
not). -/
theorem occurrence_address_conditional (today : Date) (d : ClaimDraft) :
    ("occurrence_address" ∈ (required_checks today d).map Prod.fst ↔
      d.on_premises = "No") ∧
    (required_checks today { d with on_premises := "No" }).map Prod.fst =
      (required_checks today { d with on_premises := "Yes" }).map Prod.fst ++
        ["occurrence_address"] ∧
    (required_checks today { d with on_premises := "No" }).length =
      (required_checks today { d with on_premises := "Yes" }).length + 1 ∧
    "occurrence_address" ∉
      (required_checks today { d with on_premises := "Yes" }).map Prod.fst := by
  refine ⟨?_, ?_, ?_, ?_⟩
  · by_cases hp : d.on_premises = "No" <;> simp [required_checks, hp]
  · simp [required_checks]
  · simp [required_checks]
  · simp [required_checks]

/-- Claim C7 counterexample: a raw input with ten digits still
normalizes to a valid SSN (digits beyond the ninth are dropped), so
validity after normalization does not imply exactly nine digits. -/
theorem ssn_roundtrip_counterexample :
    is_valid_ssn (format_ssn "1234567890") = true ∧
    (digitsOf "1234567890").length ≠ 9 := by
  constructor <;> decide

/-- Claim C7 (amended): the normalized SSN is valid iff the raw input
has at least nine digits (the formatter drops digits beyond the ninth). -/
theorem ssn_roundtrip_valid (raw : String) :
    is_valid_ssn (format_ssn raw) = decide (9 ≤ (digitsOf raw).length) :=
  ssnMatches_format (digitsOf raw) (digitsOf_all raw)

/-- Claim C8: FEIN normalization strips non-digits; with exactly nine
digits left it inserts one dash after the second digit, yielding a
string matching `\d{2}-\d{7}`; with any other digit count it returns
the bare digit string, which never matches (no partial dash). -/
theorem fein_normalization_spec (raw : String) :
    normalize_fein raw =
      (if (digitsOf raw).length = 9 then
        String.mk ((digitsOf raw).take 2 ++ '-' :: (digitsOf raw).drop 2)
      else String.mk (digitsOf raw)) ∧
    is_valid_fein (normalize_fein raw) = decide ((digitsOf raw).length = 9) := by
  have hshape : normalize_fein raw =
      (if (digitsOf raw).length = 9 then
        String.mk ((digitsOf raw).take 2 ++ '-' :: (digitsOf raw).drop 2)
      else String.mk (digitsOf raw)) := by
    unfold normalize_fein
    by_cases h9 : (digitsOf raw).length = 9
    · rw [if_pos h9]
      have hne : (digitsOf raw).isEmpty = false := by
        cases hl : digitsOf raw
        · rw [hl] at h9
          simp at h9
        · rfl
      simp [hne, h9]
    · rw [if_neg h9]
      have hb : ((digitsOf raw).length == 9) = false := by simpa using h9
      simp [hb]
  refine ⟨hshape, ?_⟩
  rw [hshape]
  by_cases h9 : (digitsOf raw).length = 9
  · rw [if_pos h9]
    show feinMatches ((digitsOf raw).take 2 ++ '-' :: (digitsOf raw).drop 2) =
      decide ((digitsOf raw).length = 9)
    rw [feinMatches_inserted (digitsOf raw) (digitsOf_all raw) h9]
    simp [h9]
  · rw [if_neg h9]
    show feinMatches (digitsOf raw) = decide ((digitsOf raw).length = 9)
    rw [feinMatches_digits_false (digitsOf raw) (digitsOf_all raw)]
    simp [h9]

/-- Claim C9: the active requirement set of every draft consists of the
14 unconditional keys, optionally followed by occurrence_address; its
size is 14 or 15 and never zero. -/
theorem required_checks_always_fourteen (today : Date) (d : ClaimDraft) :
    ((required_checks today d).map Prod.fst = unconditionalKeys ∨
     (required_checks today d).map Prod.fst =
       unconditionalKeys ++ ["occurrence_address"]) ∧
    ((required_checks today d).length = 14 ∨
      (required_checks today d).length = 15) ∧
    0 < (required_checks today d).length := by
  by_cases hp : d.on_premises = "No" <;>
    simp [required_checks, unconditionalKeys, hp]

/-- Claim C10: a draft scoring 100% satisfies all seven gating field
checks (they are counted by the score), so the only possible blocking
reason is the missing signature. -/
theorem score100_gating (today : Date) (d : ClaimDraft)
    (h : completeness_pct today d = 100) :
    (check_employee_name d = true ∧ check_ssn d = true ∧
     check_dob today d = true ∧ check_date_of_injury d = true ∧
     check_treating_physician d = true ∧ check_employer_legal d = true ∧
     check_employer_fein d = true) ∧
    ∀ hasSignature, submit_disabled_reasons today d hasSignature =
      if hasSignature then [] else ["Digital signature required."] := by
  rw [completeness_eq_natDiv] at h
  have h2 : 100 * satisfiedCount (required_checks today d) /
      (required_checks today d).length = 100 := by exact_mod_cast h
  have hlen : 0 < (required_checks today d).length := by
    rw [required_checks_length]
    split <;> omega
  have hsle : satisfiedCount (required_checks today d) ≤
      (required_checks today d).length := List.length_filter_le _ _
  have hts : (required_checks today d).length ≤
      satisfiedCount (required_checks today d) := by
    have h100 : 100 ≤ 100 * satisfiedCount (required_checks today d) /
        (required_checks today d).length := le_of_eq h2.symm
    have := (Nat.le_div_iff_mul_le hlen).mp h100
    omega
  have heq : ((required_checks today d).filter (fun p => p.2)).length =
      (required_checks today d).length := le_antisymm hsle hts
  have hall := filter_length_eq_all (fun p : String × Bool => p.2)
    (required_checks today d) heq
  have hname : check_employee_name d = true :=
    hall ("employee_name", check_employee_name d) (by simp [required_checks])
  have hssn : check_ssn d = true :=
    hall ("ssn", check_ssn d) (by simp [required_checks])
  have hdob : check_dob today d = true :=
    hall ("dob", check_dob today d) (by simp [required_checks])
  have hphys : check_treating_physician d = true :=
    hall ("treating_physician", check_treating_physician d)
      (by simp [required_checks])
  have hlegal : check_employer_legal d = true :=
    hall ("employer_legal", check_employer_legal d) (by simp [required_checks])
  have hfein : check_employer_fein d = true :=
    hall ("employer_fein", check_employer_fein d) (by simp [required_checks])
  refine ⟨⟨hname, hssn, hdob, rfl, hphys, hlegal, hfein⟩, ?_⟩
  intro hasSignature
  cases hasSignature <;>
    simp [submit_disabled_reasons, hname, hssn, hdob, hphys, hlegal, hfein,
      check_date_of_injury]

/-- Witness for `score100_gating`: the fully-filled draft scores exactly
100, and there the reasons list is empty with a signature and exactly
the signature message without one. -/
theorem score100_gating_witness :
    completeness_pct witnessToday filledDraft = 100 ∧
    ∀ hasSignature,
      submit_disabled_reasons witnessToday filledDraft hasSignature =
        if hasSignature then [] else ["Digital signature required."] := by
  have hscore : completeness_pct witnessToday filledDraft = 100 := by
    rw [completeness_eq_natDiv]
    decide
  exact ⟨hscore, (score100_gating witnessToday filledDraft hscore).2⟩
